import Mathlib

/-!
Shallow embedding of `src/vm/eventpipeconfiguration.cpp` (EventPipe provider
registry and session configuration of the CoreCLR runtime).

Strings are modelled by Lean `String` with decidable (case-sensitive, ordinal)
equality, matching `SString::Equals` / `wcscmp`.  64-bit keyword masks and
32-bit counters are modelled by `Nat`, with explicit `% 2 ^ 32` where the C++
code performs arithmetic in `unsigned int`.  The registry's intrusive linked
list is modelled as a Lean `List`; the `m_pProviderList` pointer, which can be
`NULL` during shutdown, is an `Option` of that list.
-/

/-- `EventPipeEventLevel` from the EventPipe headers: ordered verbosity enum
with ordinals LogAlways=0, Critical=1, Error=2, Warning=3, Informational=4,
Verbose=5. -/
inductive EventPipeEventLevel where
  | LogAlways
  | Critical
  | Error
  | Warning
  | Informational
  | Verbose
deriving DecidableEq, Repr

/-- Modelled from the spec: `EventPipeProvider` (its own translation unit,
`eventpipeprovider.cpp`, is not among the sources; the spec's §3 data model
describes the entry).  Identity is the provider name (case-sensitive); mutable
state is the enabled flag, the 64-bit keyword mask, the verbosity level and
the delete-deferred flag. -/
structure EventPipeProvider where
  providerName : String
  enabled : Bool
  keywords : Nat
  providerLevel : EventPipeEventLevel
  deleteDeferred : Bool
deriving DecidableEq, Repr

/-- Modelled from the spec: `EventPipeProvider::SetConfiguration`
(`eventpipeprovider.cpp` is not among the sources).  Sets the enabled flag,
keyword mask and level of the provider, leaving its identity and the
delete-deferred flag alone. -/
def EventPipeProvider.setConfiguration (p : EventPipeProvider)
    (providerEnabled : Bool) (keywords : Nat) (providerLevel : EventPipeEventLevel) :
    EventPipeProvider :=
  { p with enabled := providerEnabled, keywords := keywords, providerLevel := providerLevel }

/-- Modelled from the spec: the `EventPipeProvider` constructor
(`eventpipeprovider.cpp` is not among the sources) creates a provider that is
initially disabled; §4.1 of the spec relies on a freshly created provider being
disabled until a session filter is applied to it. -/
def EventPipeProvider.create (providerName : String) : EventPipeProvider :=
  { providerName := providerName
    enabled := false
    keywords := 0
    providerLevel := EventPipeEventLevel.Critical
    deleteDeferred := false }

/-- One `(name, keywords, level)` rule of a session configuration
(`EventPipeEnabledProvider`).  `providerName = none` models the `NULL` name of
the catch-all provider built by `EventPipeEnabledProviderList`'s constructor. -/
structure EventPipeEnabledProvider where
  providerName : Option String
  keywords : Nat
  loggingLevel : EventPipeEventLevel
deriving DecidableEq, Repr

/-- One externally supplied `EventPipeProviderConfiguration` tuple. -/
structure EventPipeProviderConfiguration where
  providerName : String
  keywords : Nat
  level : EventPipeEventLevel
deriving DecidableEq, Repr

/-- `EventPipeEnabledProviderList`: `m_pCatchAllProvider` and the
`m_pProviders` array (`m_numProviders` is the list's length). -/
structure EventPipeEnabledProviderList where
  catchAllProvider : Option EventPipeEnabledProvider
  providers : List EventPipeEnabledProvider
deriving DecidableEq, Repr

/-- `EventPipeEnabledProviderList`'s constructor.  The ambient
`COMPLUS_PerformanceTracing` configuration read
(`CLRConfig::GetConfigValue(CLRConfig::INTERNAL_PerformanceTracing) & 1`) is
passed in as the explicit boolean `catchAll`.  When it is set the supplied
configs are ignored and a single catch-all rule with all 64 keyword bits set
and level Verbose is built; otherwise one rule per supplied config is built
(an empty list yields no rules). -/
def mkEnabledProviderList (catchAll : Bool)
    (configs : List EventPipeProviderConfiguration) : EventPipeEnabledProviderList :=
  if catchAll then
    { catchAllProvider := some
        { providerName := none
          keywords := 0xFFFFFFFFFFFFFFFF
          loggingLevel := EventPipeEventLevel.Verbose }
      providers := [] }
  else
    { catchAllProvider := none
      providers := configs.map fun c =>
        { providerName := some c.providerName
          keywords := c.keywords
          loggingLevel := c.level } }

/-- `EventPipeEnabledProviderList::GetEnabledProvider`: the catch-all rule, if
present, is returned for every provider name; otherwise a linear scan for the
first rule whose name compares equal (`wcscmp == 0`) to the provider's name. -/
def EventPipeEnabledProviderList.getEnabledProvider
    (l : EventPipeEnabledProviderList) (name : String) :
    Option EventPipeEnabledProvider :=
  match l.catchAllProvider with
  | some catchAllProv => some catchAllProv
  | none => l.providers.find? fun ep => ep.providerName = some name

/-- `EventPipeConfiguration`'s state: session flags, the circular buffer byte
count (`size_t m_circularBufferSizeInBytes`), the current filter list
(`m_pEnabledProviderList`, `NULL` when no session is enabled) and the provider
registry (`m_pProviderList`, which is `NULL` once shutdown has torn it
down). -/
structure EventPipeConfiguration where
  enabled : Bool
  rundownEnabled : Bool
  circularBufferSizeInBytes : Nat
  enabledProviderList : Option EventPipeEnabledProviderList
  providerList : Option (List EventPipeProvider)
deriving DecidableEq, Repr

/-- `EventPipeConfiguration::EventPipeConfiguration()`: disabled, no rundown,
default buffer of 1000 MB, no filter list, an empty (but allocated) provider
list. -/
def EventPipeConfiguration.init : EventPipeConfiguration :=
  { enabled := false
    rundownEnabled := false
    circularBufferSizeInBytes := 1024 * 1024 * 1000
    enabledProviderList := none
    providerList := some [] }

/-- `EventPipeConfiguration::GetProviderNoLock`: linear scan of the registry
for the first provider whose name equals the requested one
(`SString::Equals`, case-sensitive); `NULL` when the provider list has been
torn down or no entry matches. -/
def EventPipeConfiguration.getProviderNoLock (cfg : EventPipeConfiguration)
    (providerName : String) : Option EventPipeProvider :=
  match cfg.providerList with
  | none => none
  | some l => l.find? fun p => p.providerName = providerName

/-- `EventPipeConfiguration::GetProvider`: takes the lock and delegates to
`GetProviderNoLock` (the lock is not modelled; all modelled operations run
under it). -/
def EventPipeConfiguration.getProvider (cfg : EventPipeConfiguration)
    (providerName : String) : Option EventPipeProvider :=
  cfg.getProviderNoLock providerName

/-- `EventPipeConfiguration::SetCircularBufferSize`: applied only while the
session is not enabled; silently ignored otherwise. -/
def EventPipeConfiguration.setCircularBufferSize (cfg : EventPipeConfiguration)
    (circularBufferSize : Nat) : EventPipeConfiguration :=
  if !cfg.enabled then
    { cfg with circularBufferSizeInBytes := circularBufferSize }
  else
    cfg

/-- The filter application performed both by `Enable`'s registry sweep and by
`RegisterProvider` on a late-registered provider: if the filter list matches
the provider's name, `SetConfiguration(true, keywords, level)` with the
matched rule's data; a provider with no match is left untouched. -/
def applyFilter (epl : EventPipeEnabledProviderList) (p : EventPipeProvider) :
    EventPipeProvider :=
  match epl.getEnabledProvider p.providerName with
  | some ep => p.setConfiguration true ep.keywords ep.loggingLevel
  | none => p

/-- The configuration step at the end of `RegisterProvider`: when a session
filter list is present (`m_pEnabledProviderList != NULL`) the matching rule is
applied to the freshly inserted provider; otherwise the provider is left as
created. -/
def registeredProviderView (cfg : EventPipeConfiguration)
    (provider : EventPipeProvider) : EventPipeProvider :=
  match cfg.enabledProviderList with
  | some epl => applyFilter epl provider
  | none => provider

/-- `EventPipeConfiguration::RegisterProvider`: under the lock, fail (return
`false`, registry untouched) when a live entry with the same name exists;
otherwise insert the provider at the tail (skipped when the registry has been
torn down to `NULL`, yet the call still succeeds), and, when a session filter
list is present, immediately apply the matching rule to the provider.  Returns
the success flag, the new registry state, and the provider object as the
caller now sees it (the code configures the provider in place through the
pointer that was just inserted). -/
def EventPipeConfiguration.registerProvider (cfg : EventPipeConfiguration)
    (provider : EventPipeProvider) :
    Bool × EventPipeConfiguration × EventPipeProvider :=
  match cfg.getProviderNoLock provider.providerName with
  | some _ => (false, cfg, provider)
  | none =>
    (true,
     { cfg with providerList := cfg.providerList.map fun l =>
         l ++ [registeredProviderView cfg provider] },
     registeredProviderView cfg provider)

/-- `EventPipeConfiguration::Enable(circularBufferSizeInMB, pProviders,
numProviders)`.  The buffer size product is computed in `unsigned int`
arithmetic (`circularBufferSizeInMB * 1024 * 1024`), so it wraps modulo
`2 ^ 32` before being stored in the (wider) `size_t` field.  A fresh
`EventPipeEnabledProviderList` is built (the ambient catch-all configuration
bit is the explicit `catchAll` argument), the session is marked enabled, and
the registry is swept applying the matching rule to every provider that has
one (a provider with no match is left as it was). -/
def EventPipeConfiguration.enable (cfg : EventPipeConfiguration)
    (circularBufferSizeInMB : Nat) (catchAll : Bool)
    (configs : List EventPipeProviderConfiguration) : EventPipeConfiguration :=
  let epl := mkEnabledProviderList catchAll configs
  { cfg with
    circularBufferSizeInBytes := circularBufferSizeInMB * 1024 * 1024 % 2 ^ 32
    enabledProviderList := some epl
    enabled := true
    providerList := cfg.providerList.map fun l => l.map (applyFilter epl) }

/-- `EventPipeConfiguration::Disable`: sweeps the registry calling
`SetConfiguration(false, 0, Critical)` on every provider, clears the enabled
and rundown flags, and frees the filter list. -/
def EventPipeConfiguration.disable (cfg : EventPipeConfiguration) :
    EventPipeConfiguration :=
  { cfg with
    providerList := cfg.providerList.map fun l =>
      l.map fun p => p.setConfiguration false 0 EventPipeEventLevel.Critical
    enabled := false
    rundownEnabled := false
    enabledProviderList := none }

/-- `EventPipeConfiguration::DeleteDeferredProviders`: walks the registry
(capturing the next element before mutating) and, for every provider whose
delete-deferred flag is set, runs `DeleteProvider` =
`UnregisterProvider` + destruction, i.e. removes it from the registry.  The
net effect on the list is to drop exactly the deferred entries. -/
def EventPipeConfiguration.deleteDeferredProviders (cfg : EventPipeConfiguration) :
    EventPipeConfiguration :=
  { cfg with
    providerList := cfg.providerList.map fun l =>
      l.filter fun p => !p.deleteDeferred }

/-- Modelled from the spec: the spec's `disable()` operation (§4.3) is the
source `Disable` followed by the deferred-deletion sweep; the call that
sequences `Disable()` and `DeleteDeferredProviders()` lives in the caller
(`EventPipe::Disable` in `eventpipe.cpp`), which is not among the sources. -/
def EventPipeConfiguration.disableFull (cfg : EventPipeConfiguration) :
    EventPipeConfiguration :=
  cfg.disable.deleteDeferredProviders

/-- The two fixed rundown provider configurations built by
`EventPipeConfiguration::EnableRundown`: the public provider and the rundown
provider, each with keyword mask `0x80020138` and level Verbose. -/
def rundownProviderConfigs : List EventPipeProviderConfiguration :=
  [ { providerName := "Microsoft-Windows-DotNETRuntime"
      keywords := 0x80020138
      level := EventPipeEventLevel.Verbose }
  , { providerName := "Microsoft-Windows-DotNETRuntimeRundown"
      keywords := 0x80020138
      level := EventPipeEventLevel.Verbose } ]

/-- `EventPipeConfiguration::EnableRundown`: asserts that no filter list is
currently set (`_ASSERTE(m_pEnabledProviderList == NULL)`, modelled as
returning `none` on violation), builds the fixed two-entry rundown
configuration, sets the rundown flag, and calls `Enable(1, rundownProviders,
2)`. -/
def EventPipeConfiguration.enableRundown (cfg : EventPipeConfiguration)
    (catchAll : Bool) : Option EventPipeConfiguration :=
  match cfg.enabledProviderList with
  | some _ => none
  | none =>
    some (EventPipeConfiguration.enable
      { cfg with rundownEnabled := true } 1 catchAll rundownProviderConfigs)

/-- Little-endian byte serialisation of one 16-bit value (a UTF-16 code unit,
as `memcpy`ed from a `WCHAR`). -/
def le16 (n : Nat) : List Nat :=
  [n % 256, n / 256 % 256]

/-- Little-endian byte serialisation of one 32-bit value (an `unsigned int`,
as `memcpy`ed on a little-endian target). -/
def le32 (n : Nat) : List Nat :=
  [n % 256, n / 256 % 256, n / 2 ^ 16 % 256, n / 2 ^ 24 % 256]

/-- The payload built by `EventPipeConfiguration::BuildEventMetadataEvent`:
the provider name's UTF-16 code units followed by the NUL terminator
(`(GetCount() + 1) * sizeof(WCHAR)` bytes copied from `GetUnicode()`), then
the event ID, the event version and the schema blob length
(`GetMetadataLength()`), each as a 4-byte little-endian `unsigned int`, then
the schema blob bytes themselves.  The provider name is given as its list of
UTF-16 code units, the blob as its list of bytes. -/
def buildEventMetadataPayload (nameUnits : List Nat) (eventID : Nat)
    (eventVersion : Nat) (blob : List Nat) : List Nat :=
  ((nameUnits ++ [0]).map le16).flatten ++
    le32 eventID ++ le32 eventVersion ++ le32 blob.length ++ blob

/-- Decoding helper for the documented layout: reads 16-bit little-endian
code units up to (and consuming) the NUL unit; fails if the bytes run out
first. -/
def readU16Units : List Nat → Option (List Nat × List Nat)
  | b0 :: b1 :: rest =>
    if b0 + 256 * b1 = 0 then
      some ([], rest)
    else
      match readU16Units rest with
      | some (us, r) => some ((b0 + 256 * b1) :: us, r)
      | none => none
  | _ => none

/-- Decoding helper: reads one 4-byte little-endian unsigned integer. -/
def readU32 : List Nat → Option (Nat × List Nat)
  | b0 :: b1 :: b2 :: b3 :: rest =>
    some (b0 + 256 * b1 + 2 ^ 16 * b2 + 2 ^ 24 * b3, rest)
  | _ => none

/-- Decoder following the documented metadata-event wire layout: a UTF-16
NUL-terminated provider name, then event ID, event version and schema blob
length as 4-byte little-endian integers, then exactly blob-length schema
bytes with nothing left over. -/
def decodeEventMetadataPayload (buf : List Nat) :
    Option (List Nat × Nat × Nat × List Nat) :=
  match readU16Units buf with
  | none => none
  | some (nameUnits, r1) =>
    match readU32 r1 with
    | none => none
    | some (eventID, r2) =>
      match readU32 r2 with
      | none => none
      | some (eventVersion, r3) =>
        match readU32 r3 with
        | none => none
        | some (len, r4) =>
          if r4.length = len then
            some (nameUnits, eventID, eventVersion, r4)
          else
            none

/-- The registry-uniqueness invariant: the names of the live registry entries
contain no duplicate (vacuously true once the list has been torn down). -/
def NoDupNames (cfg : EventPipeConfiguration) : Prop :=
  ∀ l, cfg.providerList = some l →
    (l.map EventPipeProvider.providerName).Nodup

/-- Sample registry content used by concrete witnesses: two freshly created
providers named A and B. -/
def providersW : List EventPipeProvider :=
  [EventPipeProvider.create ("A"), EventPipeProvider.create ("B")]

/-- Sample session configuration used by concrete witnesses: one filter for
provider A with keyword mask 0xFF and level Informational. -/
def configsW : List EventPipeProviderConfiguration :=
  [{ providerName := "A"
     keywords := 0xFF
     level := EventPipeEventLevel.Informational }]

/-- The filter list built from `configsW` without catch-all. -/
def eplW : EventPipeEnabledProviderList :=
  mkEnabledProviderList false configsW

/-- Sample disabled configuration whose registry holds `providersW`. -/
def cfgW : EventPipeConfiguration :=
  { enabled := false
    rundownEnabled := false
    circularBufferSizeInBytes := 1024 * 1024 * 1000
    enabledProviderList := none
    providerList := some providersW }

/-- Sample enabled configuration (session running with `eplW`). -/
def cfgEnabledW : EventPipeConfiguration :=
  { enabled := true
    rundownEnabled := false
    circularBufferSizeInBytes := 10 * 1024 * 1024
    enabledProviderList := some eplW
    providerList := some providersW }

/-- Sample provider that requested deferred deletion during a sweep. -/
def pDeferredW : EventPipeProvider :=
  { providerName := "C"
    enabled := true
    keywords := 3
    providerLevel := EventPipeEventLevel.Warning
    deleteDeferred := true }

/-- Sample enabled configuration whose registry also holds a provider marked
for deferred deletion. -/
def cfgDeferredW : EventPipeConfiguration :=
  { enabled := true
    rundownEnabled := false
    circularBufferSizeInBytes := 10 * 1024 * 1024
    enabledProviderList := some eplW
    providerList := some (providersW ++ [pDeferredW]) }

/-- Sample configuration whose provider list has been torn down (shutdown)
while a session filter list is still present. -/
def cfgTornDownW : EventPipeConfiguration :=
  { enabled := true
    rundownEnabled := false
    circularBufferSizeInBytes := 10 * 1024 * 1024
    enabledProviderList := some eplW
    providerList := none }

theorem setConfiguration_providerName (p : EventPipeProvider) (e : Bool)
    (k : Nat) (lv : EventPipeEventLevel) :
    (p.setConfiguration e k lv).providerName = p.providerName :=
  rfl

theorem setConfiguration_deleteDeferred (p : EventPipeProvider) (e : Bool)
    (k : Nat) (lv : EventPipeEventLevel) :
    (p.setConfiguration e k lv).deleteDeferred = p.deleteDeferred :=
  rfl

theorem applyFilter_providerName (epl : EventPipeEnabledProviderList)
    (p : EventPipeProvider) :
    (applyFilter epl p).providerName = p.providerName := by
  unfold applyFilter
  cases epl.getEnabledProvider p.providerName <;> rfl

/-- C5: with the catch-all startup flag set, the filter-list constructor
ignores the supplied tuples and `GetEnabledProvider` returns, for every
provider name whatsoever, the synthetic rule with all 64 keyword bits set and
level Verbose. -/
theorem catchAll_matches_every_name
    (configs : List EventPipeProviderConfiguration) (name : String) :
    (mkEnabledProviderList true configs).getEnabledProvider name
      = some { providerName := none
               keywords := 0xFFFFFFFFFFFFFFFF
               loggingLevel := EventPipeEventLevel.Verbose } ∧
    mkEnabledProviderList true configs = mkEnabledProviderList true [] := by
  exact ⟨rfl, rfl⟩

/-- C7: the buffer-size computation in `Enable` happens in 32-bit `unsigned
int` arithmetic before the result is stored in the wider `size_t` field, so
`Enable(4096, ...)` stores 0 bytes even though 4096 * 1024 * 1024 = 2^32 is
not 0: the product wraps, contradicting the claimed exact arithmetic for
every u32 input. -/
theorem enable_buffer_size_wraps_at_4096MB :
    (EventPipeConfiguration.init.enable 4096 false []).circularBufferSizeInBytes
      = 0 ∧ 4096 * 1024 * 1024 ≠ (0 : Nat) := by
  exact ⟨rfl, by decide⟩

/-- C8: `SetCircularBufferSize` is a complete no-op while the session is
enabled, and while disabled it stores exactly the requested byte count and
changes nothing else. -/
theorem setCircularBufferSize_spec (cfg : EventPipeConfiguration) (sz : Nat) :
    (cfg.enabled = true → cfg.setCircularBufferSize sz = cfg) ∧
    (cfg.enabled = false →
      (cfg.setCircularBufferSize sz).circularBufferSizeInBytes = sz ∧
      (cfg.setCircularBufferSize sz).enabled = cfg.enabled ∧
      (cfg.setCircularBufferSize sz).rundownEnabled = cfg.rundownEnabled ∧
      (cfg.setCircularBufferSize sz).enabledProviderList
        = cfg.enabledProviderList ∧
      (cfg.setCircularBufferSize sz).providerList = cfg.providerList) := by
  constructor <;> intro h <;>
    simp [EventPipeConfiguration.setCircularBufferSize, h]

/-- Witness for C8 at concrete states: the enabled sample ignores the call,
the freshly initialised (disabled) state takes the new size. -/
theorem setCircularBufferSize_spec_witness :
    cfgEnabledW.setCircularBufferSize 5 = cfgEnabledW ∧
    (EventPipeConfiguration.init.setCircularBufferSize 5).circularBufferSizeInBytes
      = 5 :=
  ⟨(setCircularBufferSize_spec cfgEnabledW 5).1 rfl,
   ((setCircularBufferSize_spec EventPipeConfiguration.init 5).2 rfl).1⟩

/-- C10: `Disable` is idempotent: a second call (in particular from the
already-disabled state the first call produces) leaves the session state and
every registered provider's state exactly as a single call does. -/
theorem disable_idempotent (cfg : EventPipeConfiguration) :
    cfg.disable.disable = cfg.disable := by
  simp [EventPipeConfiguration.disable, EventPipeProvider.setConfiguration,
        Option.map_map, List.map_map, Function.comp_def]

/-- C1: `Enable` stores the new filter list, marks the session enabled, and
sweeps the registry applying `applyFilter` to every existing provider; a
provider the filter list matches ends up enabled with exactly the matched
rule's keywords and level, a provider with no match is left exactly as it was
(hence remains disabled when it was disabled); and a provider registered
while the session is enabled receives the very same filter application. -/
theorem enable_and_register_apply_filters
    (cfg : EventPipeConfiguration) (mb : Nat) (catchAll : Bool)
    (configs : List EventPipeProviderConfiguration)
    (l : List EventPipeProvider) (hl : cfg.providerList = some l) :
    ((cfg.enable mb catchAll configs).enabled = true) ∧
    ((cfg.enable mb catchAll configs).enabledProviderList
      = some (mkEnabledProviderList catchAll configs)) ∧
    ((cfg.enable mb catchAll configs).providerList
      = some (l.map (applyFilter (mkEnabledProviderList catchAll configs)))) ∧
    (∀ p ∈ l, ∀ ep,
      (mkEnabledProviderList catchAll configs).getEnabledProvider p.providerName
          = some ep →
        (applyFilter (mkEnabledProviderList catchAll configs) p).enabled
          = true ∧
        (applyFilter (mkEnabledProviderList catchAll configs) p).keywords
          = ep.keywords ∧
        (applyFilter (mkEnabledProviderList catchAll configs) p).providerLevel
          = ep.loggingLevel) ∧
    (∀ p ∈ l,
      (mkEnabledProviderList catchAll configs).getEnabledProvider p.providerName
          = none →
        applyFilter (mkEnabledProviderList catchAll configs) p = p) ∧
    (∀ q : EventPipeProvider,
      (cfg.enable mb catchAll configs).getProviderNoLock q.providerName
          = none →
        ((cfg.enable mb catchAll configs).registerProvider q).1 = true ∧
        ((cfg.enable mb catchAll configs).registerProvider q).2.2
          = applyFilter (mkEnabledProviderList catchAll configs) q) := by
  refine ⟨rfl, rfl, ?_, ?_, ?_, ?_⟩
  · simp [EventPipeConfiguration.enable, hl]
  · intro p _ ep hep
    simp [applyFilter, hep, EventPipeProvider.setConfiguration]
  · intro p _ hnone
    simp [applyFilter, hnone]
  · intro q hq
    have hE : (cfg.enable mb catchAll configs).enabledProviderList
        = some (mkEnabledProviderList catchAll configs) := rfl
    simp [EventPipeConfiguration.registerProvider, registeredProviderView,
          hq, hE]

/-- Witness for C1 at a concrete state: enabling with a filter for A over a
registry holding disabled A and B applies the sweep result; A matches its
rule (keywords 0xFF, level Informational), B matches nothing and is
unchanged; a provider registered afterwards succeeds. -/
theorem enable_and_register_apply_filters_witness :
    ((cfgW.enable 10 false configsW).providerList
      = some (providersW.map (applyFilter (mkEnabledProviderList false configsW)))) ∧
    ((applyFilter (mkEnabledProviderList false configsW)
        (EventPipeProvider.create ("A"))).enabled = true) ∧
    ((applyFilter (mkEnabledProviderList false configsW)
        (EventPipeProvider.create ("A"))).keywords = 0xFF) ∧
    (applyFilter (mkEnabledProviderList false configsW)
        (EventPipeProvider.create ("B"))
      = EventPipeProvider.create ("B")) ∧
    (((cfgW.enable 10 false configsW).registerProvider
        (EventPipeProvider.create ("D"))).1 = true) := by
  refine ⟨(enable_and_register_apply_filters cfgW 10 false configsW providersW
      rfl).2.2.1, ?_, ?_, ?_, ?_⟩
  · exact ((enable_and_register_apply_filters cfgW 10 false configsW providersW
      rfl).2.2.2.1 (EventPipeProvider.create ("A")) (by decide)
      { providerName := some ("A")
        keywords := 0xFF
        loggingLevel := EventPipeEventLevel.Informational } (by decide)).1
  · exact ((enable_and_register_apply_filters cfgW 10 false configsW providersW
      rfl).2.2.2.1 (EventPipeProvider.create ("A")) (by decide)
      { providerName := some ("A")
        keywords := 0xFF
        loggingLevel := EventPipeEventLevel.Informational } (by decide)).2.1
  · exact (enable_and_register_apply_filters cfgW 10 false configsW providersW
      rfl).2.2.2.2.1 (EventPipeProvider.create ("B")) (by decide) (by decide)
  · exact ((enable_and_register_apply_filters cfgW 10 false configsW providersW
      rfl).2.2.2.2.2 (EventPipeProvider.create ("D")) (by decide)).1

/-- C6: `EnableRundown` asserts that no filter list is set (modelled as
returning `none` when one is), and otherwise sets the rundown flag and calls
`Enable` with 1 MB and the fixed two-entry configuration, which (catch-all
off) yields exactly the two rundown filters with keyword mask 0x80020138 and
level Verbose. -/
theorem enableRundown_spec (cfg : EventPipeConfiguration) (catchAll : Bool) :
    (∀ epl, cfg.enabledProviderList = some epl →
      cfg.enableRundown catchAll = none) ∧
    (cfg.enabledProviderList = none → catchAll = false →
      cfg.enableRundown catchAll
        = some (EventPipeConfiguration.enable
            { cfg with rundownEnabled := true } 1 catchAll
            rundownProviderConfigs) ∧
      (EventPipeConfiguration.enable { cfg with rundownEnabled := true } 1
          catchAll rundownProviderConfigs).rundownEnabled = true ∧
      (EventPipeConfiguration.enable { cfg with rundownEnabled := true } 1
          catchAll rundownProviderConfigs).enabled = true ∧
      (EventPipeConfiguration.enable { cfg with rundownEnabled := true } 1
          catchAll rundownProviderConfigs).circularBufferSizeInBytes
        = 1024 * 1024 ∧
      (EventPipeConfiguration.enable { cfg with rundownEnabled := true } 1
          catchAll rundownProviderConfigs).enabledProviderList
        = some
            { catchAllProvider := none
              providers :=
                [ { providerName := some ("Microsoft-Windows-DotNETRuntime")
                    keywords := 0x80020138
                    loggingLevel := EventPipeEventLevel.Verbose }
                , { providerName :=
                      some ("Microsoft-Windows-DotNETRuntimeRundown")
                    keywords := 0x80020138
                    loggingLevel := EventPipeEventLevel.Verbose } ] }) := by
  constructor
  · intro epl h
    simp [EventPipeConfiguration.enableRundown, h]
  · intro h hca
    subst hca
    refine ⟨?_, rfl, rfl, rfl, rfl⟩
    simp [EventPipeConfiguration.enableRundown, h]

/-- Witness for C6 at concrete states: an enabled sample state trips the
assertion; the freshly initialised state produces the two-filter rundown
session. -/
theorem enableRundown_spec_witness :
    cfgEnabledW.enableRundown false = none ∧
    EventPipeConfiguration.init.enableRundown false
      = some (EventPipeConfiguration.enable
          { EventPipeConfiguration.init with rundownEnabled := true } 1 false
          rundownProviderConfigs) ∧
    (EventPipeConfiguration.enable
        { EventPipeConfiguration.init with rundownEnabled := true } 1 false
        rundownProviderConfigs).enabledProviderList
      = some
          { catchAllProvider := none
            providers :=
              [ { providerName := some ("Microsoft-Windows-DotNETRuntime")
                  keywords := 0x80020138
                  loggingLevel := EventPipeEventLevel.Verbose }
              , { providerName :=
                    some ("Microsoft-Windows-DotNETRuntimeRundown")
                  keywords := 0x80020138
                  loggingLevel := EventPipeEventLevel.Verbose } ] } :=
  ⟨(enableRundown_spec cfgEnabledW false).1 eplW rfl,
   ((enableRundown_spec EventPipeConfiguration.init false).2 rfl rfl).1,
   ((enableRundown_spec EventPipeConfiguration.init false).2 rfl rfl).2.2.2.2⟩

/-- C9: once the provider list has been torn down (shutdown), registering a
provider still returns success and still applies the active session filter to
the provider object, but stores nothing: the registry state is unchanged and
every subsequent lookup returns `none`. -/
theorem register_after_teardown (cfg : EventPipeConfiguration)
    (p : EventPipeProvider) (h : cfg.providerList = none) :
    ((cfg.registerProvider p).1 = true) ∧
    ((cfg.registerProvider p).2.1 = cfg) ∧
    (∀ name, (cfg.registerProvider p).2.1.getProviderNoLock name = none) ∧
    (∀ epl, cfg.enabledProviderList = some epl →
      (cfg.registerProvider p).2.2 = applyFilter epl p) := by
  obtain ⟨en, ru, sz, eplOpt, pl⟩ := cfg
  simp only [] at h
  subst h
  cases eplOpt <;>
    simp [EventPipeConfiguration.registerProvider, registeredProviderView,
          EventPipeConfiguration.getProviderNoLock]

/-- Witness for C9 at a concrete torn-down state with a live session filter:
registration of A succeeds, the returned provider object has the filter
applied, and the state is unchanged. -/
theorem register_after_teardown_witness :
    ((cfgTornDownW.registerProvider (EventPipeProvider.create ("A"))).1
      = true) ∧
    ((cfgTornDownW.registerProvider (EventPipeProvider.create ("A"))).2.1
      = cfgTornDownW) ∧
    ((cfgTornDownW.registerProvider (EventPipeProvider.create ("A"))).2.2
      = applyFilter eplW (EventPipeProvider.create ("A"))) :=
  ⟨(register_after_teardown cfgTornDownW (EventPipeProvider.create ("A"))
      rfl).1,
   (register_after_teardown cfgTornDownW (EventPipeProvider.create ("A"))
      rfl).2.1,
   (register_after_teardown cfgTornDownW (EventPipeProvider.create ("A"))
      rfl).2.2.2 eplW rfl⟩

/-- C3: the spec's disable operation — the source `Disable` followed by the
deferred-deletion sweep — forces every surviving provider to enabled=false,
keywords=0, level=Critical, clears both session flags, discards the filter
list, and removes every provider that had requested deferred deletion, so
that lookup for such a provider afterwards returns nothing (given the
registry's name-uniqueness invariant). -/
theorem disableFull_spec (cfg : EventPipeConfiguration)
    (l : List EventPipeProvider) (hl : cfg.providerList = some l)
    (hnd : (l.map EventPipeProvider.providerName).Nodup) :
    cfg.disableFull.enabled = false ∧
    cfg.disableFull.rundownEnabled = false ∧
    cfg.disableFull.enabledProviderList = none ∧
    cfg.disableFull.providerList
      = some ((l.map fun p =>
          p.setConfiguration false 0 EventPipeEventLevel.Critical).filter
            fun p => !p.deleteDeferred) ∧
    (∀ q r, cfg.disableFull.providerList = some r → q ∈ r →
      q.enabled = false ∧ q.keywords = 0 ∧
      q.providerLevel = EventPipeEventLevel.Critical) ∧
    (∀ p ∈ l, p.deleteDeferred = true →
      cfg.disableFull.getProviderNoLock p.providerName = none) := by
  have h4 : cfg.disableFull.providerList
      = some ((l.map fun p =>
          p.setConfiguration false 0 EventPipeEventLevel.Critical).filter
            fun p => !p.deleteDeferred) := by
    simp [EventPipeConfiguration.disableFull, EventPipeConfiguration.disable,
          EventPipeConfiguration.deleteDeferredProviders, hl]
  refine ⟨rfl, rfl, rfl, h4, ?_, ?_⟩
  · intro q r hr hq
    rw [h4] at hr
    injection hr with hr
    subst hr
    obtain ⟨hqm, _⟩ := List.mem_filter.1 hq
    obtain ⟨p0, _, rfl⟩ := List.mem_map.1 hqm
    exact ⟨rfl, rfl, rfl⟩
  · intro p hp hdef
    simp only [EventPipeConfiguration.getProviderNoLock, h4]
    simp only [List.find?_eq_none]
    intro q hq
    obtain ⟨hqm, hqd⟩ := List.mem_filter.1 hq
    obtain ⟨p0, hp0, rfl⟩ := List.mem_map.1 hqm
    simp only [setConfiguration_providerName, decide_eq_true_eq]
    intro hname
    have : p0 = p := List.inj_on_of_nodup_map hnd hp0 hp hname
    subst this
    rw [setConfiguration_deleteDeferred, hdef] at hqd
    simp at hqd

/-- Witness for C3 at a concrete state: an enabled session over A, B and a
deferred-deleted provider C; after the full disable, every survivor is
disabled with keywords 0 and level Critical and C is no longer found. -/
theorem disableFull_spec_witness :
    cfgDeferredW.disableFull.enabled = false ∧
    cfgDeferredW.disableFull.enabledProviderList = none ∧
    cfgDeferredW.disableFull.getProviderNoLock pDeferredW.providerName
      = none := by
  refine ⟨(disableFull_spec cfgDeferredW (providersW ++ [pDeferredW]) rfl
      (by decide)).1,
    (disableFull_spec cfgDeferredW (providersW ++ [pDeferredW]) rfl
      (by decide)).2.2.1,
    (disableFull_spec cfgDeferredW (providersW ++ [pDeferredW]) rfl
      (by decide)).2.2.2.2.2 pDeferredW (by decide) rfl⟩

theorem registeredProviderView_providerName (cfg : EventPipeConfiguration)
    (p : EventPipeProvider) :
    (registeredProviderView cfg p).providerName = p.providerName := by
  unfold registeredProviderView
  cases cfg.enabledProviderList with
  | none => rfl
  | some epl => exact applyFilter_providerName epl p

theorem noDupNames_transfer (cfg cfg2 : EventPipeConfiguration)
    (f : List EventPipeProvider → List EventPipeProvider)
    (hpl : cfg2.providerList = cfg.providerList.map f)
    (hf : ∀ l, ((f l).map EventPipeProvider.providerName).Sublist
            (l.map EventPipeProvider.providerName))
    (h : NoDupNames cfg) : NoDupNames cfg2 := by
  intro l2 hl2
  rw [hpl] at hl2
  cases hpl0 : cfg.providerList with
  | none => rw [hpl0] at hl2; exact absurd hl2 (by simp)
  | some l0 =>
    rw [hpl0] at hl2
    have hl2e : f l0 = l2 := by simpa using hl2
    subst hl2e
    exact (h l0 hpl0).sublist (hf l0)

theorem noDupNames_disable (cfg : EventPipeConfiguration)
    (h : NoDupNames cfg) : NoDupNames cfg.disable := by
  refine noDupNames_transfer cfg cfg.disable _ rfl ?_ h
  intro l
  rw [List.map_map]
  have : (EventPipeProvider.providerName ∘ fun p =>
      p.setConfiguration false 0 EventPipeEventLevel.Critical)
      = EventPipeProvider.providerName := by
    funext p
    exact setConfiguration_providerName p false 0 EventPipeEventLevel.Critical
  rw [this]

theorem noDupNames_enable (cfg : EventPipeConfiguration) (mb : Nat)
    (catchAll : Bool) (configs : List EventPipeProviderConfiguration)
    (h : NoDupNames cfg) : NoDupNames (cfg.enable mb catchAll configs) := by
  refine noDupNames_transfer cfg (cfg.enable mb catchAll configs) _ rfl ?_ h
  intro l
  rw [List.map_map]
  have : (EventPipeProvider.providerName ∘
      applyFilter (mkEnabledProviderList catchAll configs))
      = EventPipeProvider.providerName := by
    funext p
    exact applyFilter_providerName (mkEnabledProviderList catchAll configs) p
  rw [this]

theorem noDupNames_deleteDeferred (cfg : EventPipeConfiguration)
    (h : NoDupNames cfg) : NoDupNames cfg.deleteDeferredProviders := by
  refine noDupNames_transfer cfg cfg.deleteDeferredProviders _ rfl ?_ h
  intro l
  exact (List.filter_sublist l).map EventPipeProvider.providerName

theorem noDupNames_register (cfg : EventPipeConfiguration)
    (p : EventPipeProvider) (h : NoDupNames cfg) :
    NoDupNames (cfg.registerProvider p).2.1 := by
  cases hs : cfg.getProviderNoLock p.providerName with
  | some q =>
    have he : (cfg.registerProvider p).2.1 = cfg := by
      simp [EventPipeConfiguration.registerProvider, hs]
    rw [he]
    exact h
  | none =>
    have he : (cfg.registerProvider p).2.1.providerList
        = cfg.providerList.map fun l =>
            l ++ [registeredProviderView cfg p] := by
      simp [EventPipeConfiguration.registerProvider, hs]
    intro l2 hl2
    rw [he] at hl2
    cases hpl0 : cfg.providerList with
    | none => rw [hpl0] at hl2; exact absurd hl2 (by simp)
    | some l0 =>
      rw [hpl0] at hl2
      have hl2e : l0 ++ [registeredProviderView cfg p] = l2 := by
        simpa using hl2
      subst hl2e
      rw [EventPipeConfiguration.getProviderNoLock, hpl0] at hs
      simp only [List.find?_eq_none, decide_eq_true_eq] at hs
      rw [List.map_append]
      rw [List.nodup_append]
      refine ⟨h l0 hpl0, by simp, ?_⟩
      intro a ha hb
      simp only [List.map_cons, List.map_nil, List.mem_singleton,
        registeredProviderView_providerName] at hb
      obtain ⟨q0, hq0, rfl⟩ := List.mem_map.1 ha
      exact hs q0 hq0 (by rw [hb])

/-- C4: registering a name that already has a live entry returns the failure
value and leaves the registry untouched; consequently the
at-most-one-entry-per-name invariant (`NoDupNames`) is preserved by
registration and by every other modelled operation. -/
theorem register_duplicate_fails_and_uniqueness
    (cfg : EventPipeConfiguration) (p : EventPipeProvider) (mb sz : Nat)
    (catchAll : Bool) (configs : List EventPipeProviderConfiguration) :
    ((cfg.getProviderNoLock p.providerName).isSome = true →
      cfg.registerProvider p = (false, cfg, p)) ∧
    (NoDupNames cfg →
      NoDupNames (cfg.registerProvider p).2.1 ∧
      NoDupNames (cfg.enable mb catchAll configs) ∧
      NoDupNames cfg.disable ∧
      NoDupNames cfg.deleteDeferredProviders ∧
      NoDupNames cfg.disableFull ∧
      NoDupNames (cfg.setCircularBufferSize sz) ∧
      (∀ cfg2, cfg.enableRundown catchAll = some cfg2 →
        NoDupNames cfg2)) := by
  constructor
  · intro hdup
    cases hs : cfg.getProviderNoLock p.providerName with
    | none => rw [hs] at hdup; exact absurd hdup (by simp)
    | some q => simp [EventPipeConfiguration.registerProvider, hs]
  · intro h
    refine ⟨noDupNames_register cfg p h,
            noDupNames_enable cfg mb catchAll configs h,
            noDupNames_disable cfg h,
            noDupNames_deleteDeferred cfg h,
            noDupNames_deleteDeferred cfg.disable (noDupNames_disable cfg h),
            ?_, ?_⟩
    · intro l2 hl2
      unfold EventPipeConfiguration.setCircularBufferSize at hl2
      by_cases hen : cfg.enabled <;> simp [hen] at hl2 <;> exact h l2 hl2
    · intro cfg2 hr
      unfold EventPipeConfiguration.enableRundown at hr
      cases hE : cfg.enabledProviderList with
      | some epl => rw [hE] at hr; exact absurd hr (by simp)
      | none =>
        rw [hE] at hr
        simp only [Option.some_inj] at hr
        subst hr
        refine noDupNames_enable _ 1 catchAll rundownProviderConfigs ?_
        intro l0 hl0
        exact h l0 hl0

/-- Witness for C4 at a concrete state: re-registering the name A over a
registry already holding A fails and leaves the state untouched; registering
the fresh name D preserves the name-uniqueness invariant. -/
theorem register_duplicate_fails_and_uniqueness_witness :
    cfgW.registerProvider (EventPipeProvider.create ("A"))
      = (false, cfgW, EventPipeProvider.create ("A")) ∧
    NoDupNames (cfgW.registerProvider (EventPipeProvider.create ("D"))).2.1 := by
  constructor
  · exact (register_duplicate_fails_and_uniqueness cfgW
      (EventPipeProvider.create ("A")) 0 0 false []).1 (by decide)
  · refine ((register_duplicate_fails_and_uniqueness cfgW
      (EventPipeProvider.create ("D")) 0 0 false []).2 ?_).1
    intro l hl
    rw [show cfgW.providerList = some providersW from rfl] at hl
    injection hl with hl
    subst hl
    decide

theorem flatten_map_le16_length (l : List Nat) :
    ((l.map le16).flatten).length = 2 * l.length := by
  induction l with
  | nil => rfl
  | cons u us ih =>
    simp only [List.map_cons, List.flatten_cons, List.length_append,
      List.length_cons, le16, List.length_nil, ih]
    omega

theorem readU16Units_encode (l : List Nat) (rest : List Nat)
    (hl : ∀ u ∈ l, u ≠ 0 ∧ u < 2 ^ 16) :
    readU16Units (((l ++ [0]).map le16).flatten ++ rest) = some (l, rest) := by
  induction l with
  | nil => simp [le16, readU16Units]
  | cons u us ih =>
    have hu := hl u (List.mem_cons_self u us)
    have hrec := ih fun v hv => hl v (List.mem_cons_of_mem u hv)
    simp only [List.cons_append, List.map_cons, List.flatten_cons, le16,
      List.append_assoc]
    rw [readU16Units]
    have hu2 : u % 256 + 256 * (u / 256 % 256) = u := by
      have h16 : u < 65536 := by simpa using hu.2
      omega
    rw [hu2, if_neg hu.1]
    simp only [List.nil_append, hrec]

theorem readU32_le32 (n : Nat) (rest : List Nat) (h : n < 2 ^ 32) :
    readU32 (le32 n ++ rest) = some (n, rest) := by
  simp only [le32, List.cons_append, List.nil_append, readU32]
  have h32 : n < 4294967296 := by simpa using h
  have : n % 256 + 256 * (n / 256 % 256) + 2 ^ 16 * (n / 2 ^ 16 % 256)
      + 2 ^ 24 * (n / 2 ^ 24 % 256) = n := by
    simp only [Nat.pow_succ, Nat.pow_zero, Nat.one_mul]
    omega
  rw [this]

/-- C2: `BuildEventMetadataEvent` lays the payload out as the provider name's
UTF-16 code units plus a NUL terminator, then event ID, event version and
schema blob length as 4-byte little-endian values, then the blob bytes; its
total length is (codeunits(name)+1)*2 + 4 + 4 + 4 + blobLength, and decoding
by that layout recovers the identical four fields. -/
theorem metadata_event_roundtrip (nameUnits : List Nat)
    (eventID eventVersion : Nat) (blob : List Nat)
    (hname : ∀ u ∈ nameUnits, u ≠ 0 ∧ u < 2 ^ 16)
    (hid : eventID < 2 ^ 32) (hver : eventVersion < 2 ^ 32)
    (hblob : blob.length < 2 ^ 32) :
    (buildEventMetadataPayload nameUnits eventID eventVersion blob).length
      = (nameUnits.length + 1) * 2 + 4 + 4 + 4 + blob.length ∧
    decodeEventMetadataPayload
        (buildEventMetadataPayload nameUnits eventID eventVersion blob)
      = some (nameUnits, eventID, eventVersion, blob) := by
  constructor
  · simp only [buildEventMetadataPayload, List.length_append,
      flatten_map_le16_length, le32, List.length_cons, List.length_nil,
      List.length_map]
    omega
  · unfold decodeEventMetadataPayload buildEventMetadataPayload
    simp only [List.append_assoc]
    rw [readU16Units_encode nameUnits _ hname]
    simp [readU32_le32 eventID _ hid, readU32_le32 eventVersion _ hver,
      readU32_le32 blob.length _ hblob]

/-- Witness for C2: provider name "Foo" (UTF-16 code units 70, 111, 111),
eventID 7, eventVersion 1, schema blob [1, 2, 3]: total length 23 bytes and
an exact round trip of all four fields. -/
theorem metadata_event_roundtrip_witness :
    (buildEventMetadataPayload [70, 111, 111] 7 1 [1, 2, 3]).length = 23 ∧
    decodeEventMetadataPayload
        (buildEventMetadataPayload [70, 111, 111] 7 1 [1, 2, 3])
      = some ([70, 111, 111], 7, 1, [1, 2, 3]) :=
  ⟨(metadata_event_roundtrip [70, 111, 111] 7 1 [1, 2, 3] (by decide)
      (by decide) (by decide) (by decide)).1.trans (by decide),
   (metadata_event_roundtrip [70, 111, 111] 7 1 [1, 2, 3] (by decide)
      (by decide) (by decide) (by decide)).2⟩
